import Mathlib

/-!
Shallow embedding of APEL_Scan/main.c (ATmega328P firmware for the
A.P.E.L. Scan instrument).  Machine integers are modelled as ℤ/ℕ
(overflow is irrelevant at the values the device produces: 10-bit ADC
codes and voltages below 7 V); C float arithmetic is modelled as exact
rational arithmetic ℚ; the LCD is modelled as a trace of emitted
commands, raw data bytes and strings; the ADC is modelled as an
environment-supplied sample consumed by read_adc.
-/

namespace APEL

/-- Truncation of a rational toward zero, as a C cast from float to int. -/
def cIntOfRat (q : ℚ) : ℤ := q.num.tdiv q.den

/-- Events observable on the LCD: a command byte via lcd_cmd, a raw data
byte via lcd_data, or a string via lcd_str. -/
inductive Ev where
  | cmd (c : ℕ)
  | dat (d : ℕ)
  | text (s : String)
deriving DecidableEq

/-- The three push-button levels read from PIND bits 0..2 (start, stop,
readBias) each loop iteration. -/
structure Buttons where
  start : Bool
  stop : Bool
  readBias : Bool
deriving DecidableEq

/-- The mutable program state of main: the local variables together with
the ADMUX register written by adc_init / adc_initBG / read_adc. -/
structure MachineState where
  peakVoltage : ℤ
  Vread : ℤ
  bias : ℚ
  peak : ℚ
  state : ℤ
  admux : ℕ
deriving DecidableEq

/-- Variable initialisation at the top of main (bias is uninitialised in
the C source and never read before being written; we pick 0). -/
def initialState : MachineState :=
  { peakVoltage := 0, Vread := 0, bias := 0, peak := 0, state := 0, admux := 0 }

def REFS0 : ℕ := 6
def REFS1 : ℕ := 7

/-- ADMUX value written by adc_init: Aref = Vcc. -/
def adc_init_admux : ℕ := (0 <<< REFS1) ||| (1 <<< REFS0)

/-- ADMUX value written by adc_initBG, literally (1 << REFS1 | 1 << REFS1)
as in the source. -/
def adc_initBG_admux : ℕ := (1 <<< REFS1) ||| (1 <<< REFS1)

/-- Model of read_adc: selects the channel in ADMUX and returns the
environment-supplied conversion result. -/
def read_adc (channel : ℕ) (admux : ℕ) (input : ℕ) : ℕ × ℕ :=
  ((admux &&& 0xF0) ||| (channel &&& 0x0F), input)

/-- Line 103 of main.c: convert the 10-bit peak code to a voltage
referenced to 1.1 V with the (495.2 + 101.65) / 101.65 divider. -/
def peakFormula (peakVoltage : ℤ) : ℚ :=
  (peakVoltage : ℚ) * 1.1 * ((495.2 + 101.65) / 101.65) / 1023.0

/-- Line 127 of main.c: convert the 10-bit bias code to a voltage
referenced to 5.0 V with the (498.1 + 101.8) / 101.8 divider. -/
def biasFormula (Vread : ℤ) : ℚ :=
  (Vread : ℚ) * 5.0 * ((498.1 + 101.8) / 101.8) / 1023.0

/-- Model of print_volt: split the voltage into integer part and a
truncated 3-digit decimal part, zero-padding the decimal part exactly as
the three sprintf format strings do. -/
def print_volt (voltage : ℚ) : String :=
  let intV : ℤ := cIntOfRat voltage
  let diffV : ℚ := voltage - (intV : ℚ)
  let decV : ℤ := cIntOfRat (diffV * 1000)
  if decV < 10 then toString intV ++ ".00" ++ toString decV ++ " V"
  else if decV < 100 then toString intV ++ ".0" ++ toString decV ++ " V"
  else toString intV ++ "." ++ toString decV ++ " V"

/-- LCD trace of lcd_init: 2 lines 5x7, display on, clear, home. -/
def lcd_init_ev : List Ev := [Ev.cmd 0x38, Ev.cmd 0x0C, Ev.cmd 0x01, Ev.cmd 0x80]

/-- LCD trace of print_APEL: position [1,2], the four custom glyphs with
dots, then the string ". Scan". -/
def print_APEL_ev : List Ev :=
  [Ev.cmd 0x81, Ev.dat 0x00, Ev.dat 0x2E, Ev.dat 0x01, Ev.dat 0x2E,
   Ev.dat 0x02, Ev.dat 0x2E, Ev.dat 0x03, Ev.text ". Scan"]

/-- The button-dispatch if / else-if chain at the top of the while loop
(lines 85-115 of main.c). -/
def buttonPhase (btn : Buttons) (s : MachineState) : MachineState × List Ev :=
  if btn.start then
    ({ s with admux := adc_initBG_admux, state := 1, peakVoltage := 0 },
     lcd_init_ev ++ print_APEL_ev ++
       [Ev.text ". Scan", Ev.cmd 0xC3, Ev.text "Running..."])
  else if btn.stop then
    let peak := peakFormula s.peakVoltage
    ({ s with state := 2, peak := peak },
     lcd_init_ev ++
       [Ev.cmd 0x82, Ev.text "Peak Voltage", Ev.cmd 0xC0, Ev.text (print_volt peak)])
  else if btn.readBias then
    ({ s with admux := adc_init_admux, state := 3 },
     lcd_init_ev ++ [Ev.cmd 0x83, Ev.text "SiPM Bias", Ev.cmd 0xC2])
  else (s, [])

/-- The switch(state) statement at the bottom of the while loop
(lines 117-131 of main.c); input is the value the ADC conversion would
return this iteration. -/
def switchPhase (input : ℕ) (s : MachineState) : MachineState × List Ev :=
  if s.state = 1 then
    let r := read_adc 7 s.admux input
    let s1 := { s with admux := r.1, Vread := (r.2 : ℤ) }
    (if s1.Vread > s1.peakVoltage then { s1 with peakVoltage := s1.Vread } else s1, [])
  else if s.state = 3 then
    let r := read_adc 1 s.admux input
    let b := biasFormula (r.2 : ℤ)
    ({ s with admux := r.1, Vread := (r.2 : ℤ), bias := b },
     [Ev.cmd 0xC0, Ev.text (print_volt b)])
  else (s, [])

/-- One iteration of the while(1) loop: button dispatch then the
state switch. -/
def loopIter (btn : Buttons) (input : ℕ) (s : MachineState) : MachineState × List Ev :=
  let p := buttonPhase btn s
  let q := switchPhase input p.1
  (q.1, p.2 ++ q.2)

/-- Run a sequence of loop iterations, collecting all LCD events. -/
def runTrace (inputs : List (Buttons × ℕ)) (s : MachineState) : MachineState × List Ev :=
  match inputs with
  | [] => (s, [])
  | (b, n) :: rest =>
    let p := loopIter b n s
    let q := runTrace rest p.1
    (q.1, p.2 ++ q.2)

/-- Modelled from the spec: a calibration profile bundling the reference
voltage, the divider resistances and the full-scale code (section 3 of
the design document; the C source inlines these as literals). -/
structure CalibrationProfile where
  referenceVoltage : ℚ
  dividerNumerator : ℚ
  dividerDenominator : ℚ
  fullScaleCode : ℚ
deriving DecidableEq

/-- Modelled from the spec: the pure reconstruction function of
section 4.3. -/
def reconstruct (sample : ℚ) (p : CalibrationProfile) : ℚ :=
  sample * p.referenceVoltage * (p.dividerNumerator / p.dividerDenominator)
    / p.fullScaleCode

/-- Upper divider resistance of the peak-signal path (kΩ). -/
def R_SIG_TOP : ℚ := 495.2

/-- Lower divider resistance of the peak-signal path (kΩ). -/
def R_SIG_BOT : ℚ := 101.65

/-- Upper divider resistance of the bias-sense path (kΩ). -/
def R_BIAS_TOP : ℚ := 498.1

/-- Lower divider resistance of the bias-sense path (kΩ). -/
def R_BIAS_BOT : ℚ := 101.8

/-- Peak-signal profile: internal 1.1 V bandgap reference, signal
divider, 10-bit full scale. -/
def peakProfile : CalibrationProfile :=
  { referenceVoltage := 1.1, dividerNumerator := R_SIG_TOP + R_SIG_BOT,
    dividerDenominator := R_SIG_BOT, fullScaleCode := 1023 }

/-- Bias-signal profile: 5.0 V supply reference, bias divider, 10-bit
full scale. -/
def biasProfile : CalibrationProfile :=
  { referenceVoltage := 5.0, dividerNumerator := R_BIAS_TOP + R_BIAS_BOT,
    dividerDenominator := R_BIAS_BOT, fullScaleCode := 1023 }

/-- Spec-side decimal padding: a natural number rendered in base 10,
left-padded with zeros to width 3. -/
def pad3 (n : ℕ) : String := String.leftpad 3 '0' (Nat.repr n)

/-- Spec-side formatter for a voltage: integer part, a dot, the
fractional part times 1000 truncated and zero-padded to exactly three
digits, a space and the unit. -/
def formatVoltage (v : ℚ) : String :=
  Nat.repr (⌊v⌋.toNat) ++ "." ++ pad3 ((⌊(v - (⌊v⌋ : ℚ)) * 1000⌋).toNat) ++ " V"

/-- The test trace of section 8 of the design document: Start active for
one iteration, five button-free iterations with samples 100, 300, 200,
450, 450, then Stop active for one iteration. -/
def acquisitionTrace : List (Buttons × ℕ) :=
  [(⟨true, false, false⟩, 0), (⟨false, false, false⟩, 100), (⟨false, false, false⟩, 300),
   (⟨false, false, false⟩, 200), (⟨false, false, false⟩, 450), (⟨false, false, false⟩, 450),
   (⟨false, true, false⟩, 450)]

/-- A machine state mid-acquisition: mode Acquiring with an accumulated
peak of 300. -/
def acquiringState300 : MachineState :=
  { peakVoltage := 300, Vread := 300, bias := 0, peak := 0, state := 1,
    admux := adc_initBG_admux }

/-- A machine state in mode Stopped holding the peak 450 of a finished
acquisition. -/
def stoppedState450 : MachineState :=
  { peakVoltage := 450, Vread := 450, bias := 0, peak := peakFormula 450, state := 2,
    admux := adc_initBG_admux }

/-- A machine state in mode ReadingBias with a stale peak of 450. -/
def readingBiasState : MachineState :=
  { peakVoltage := 450, Vread := 200, bias := biasFormula 200, peak := peakFormula 450,
    state := 3, admux := adc_init_admux }

lemma cIntOfRat_eq_floor (q : ℚ) (h : 0 ≤ q) : cIntOfRat q = ⌊q⌋ := by
  rw [cIntOfRat, Int.tdiv_eq_ediv (Rat.num_nonneg.mpr h) (Int.natCast_nonneg _),
    Rat.floor_def]

lemma toString_int_nonneg (i : ℤ) (h : 0 ≤ i) : toString i = Nat.repr i.toNat := by
  cases i with
  | ofNat m => rfl
  | negSucc m => exact absurd h (by simp)

set_option maxRecDepth 10000 in
lemma pad3_cases : ∀ m : Fin 1000,
    (if m.val < 10 then "00" ++ Nat.repr m.val
     else if m.val < 100 then "0" ++ Nat.repr m.val
     else Nat.repr m.val) = pad3 m.val := by decide

lemma pad3_eq (n : ℕ) (h : n < 1000) :
    (if n < 10 then "00" ++ Nat.repr n
     else if n < 100 then "0" ++ Nat.repr n
     else Nat.repr n) = pad3 n := pad3_cases ⟨n, h⟩

set_option maxRecDepth 10000 in
lemma repr_length_le : ∀ m : Fin 1000, (Nat.repr m.val).length ≤ 3 := by decide

lemma pad3_length (n : ℕ) (h : n < 1000) : (pad3 n).length = 3 := by
  rw [pad3, String.leftpad_length]
  exact Nat.max_eq_left (repr_length_le ⟨n, h⟩)

lemma frac_thousand_bounds (v : ℚ) :
    0 ≤ ⌊(v - (⌊v⌋ : ℚ)) * 1000⌋ ∧ ⌊(v - (⌊v⌋ : ℚ)) * 1000⌋ < 1000 := by
  have hle : (⌊v⌋ : ℚ) ≤ v := Int.floor_le v
  have hlt : v < ⌊v⌋ + 1 := Int.lt_floor_add_one v
  constructor
  · apply Int.floor_nonneg.mpr
    nlinarith
  · rw [Int.floor_lt]
    push_cast
    nlinarith

lemma print_volt_spec (v : ℚ) (h : 0 ≤ v) : print_volt v = formatVoltage v := by
  have hfl : (0:ℤ) ≤ ⌊v⌋ := Int.floor_nonneg.mpr h
  have hle : (⌊v⌋ : ℚ) ≤ v := Int.floor_le v
  have hprod0 : (0:ℚ) ≤ (v - (⌊v⌋ : ℚ)) * 1000 := by nlinarith
  have hd0 : (0:ℤ) ≤ ⌊(v - (⌊v⌋ : ℚ)) * 1000⌋ := (frac_thousand_bounds v).1
  have hd1 : ⌊(v - (⌊v⌋ : ℚ)) * 1000⌋ < 1000 := (frac_thousand_bounds v).2
  simp only [print_volt, formatVoltage]
  rw [cIntOfRat_eq_floor v h]
  rw [cIntOfRat_eq_floor _ hprod0]
  rw [toString_int_nonneg _ hfl, toString_int_nonneg _ hd0]
  rw [← pad3_eq (⌊(v - (⌊v⌋ : ℚ)) * 1000⌋).toNat (by omega)]
  have e00 : ("." : String) ++ "00" = ".00" := rfl
  have e0 : ("." : String) ++ "0" = ".0" := rfl
  split_ifs with h1 h2 h3 h4 <;> try omega
  · simp only [← String.append_assoc]
    rw [String.append_assoc _ "." "00", e00]
  · simp only [← String.append_assoc]
    rw [String.append_assoc _ "." "0", e0]
  · rfl

lemma print_volt_zero : print_volt 0 = "0.000 V" := by
  rw [print_volt_spec 0 le_rfl]
  norm_num [formatVoltage]
  decide

lemma peakFormula_eq (z : ℤ) : peakFormula z = reconstruct z peakProfile := by
  norm_num [peakFormula, reconstruct, peakProfile, R_SIG_TOP, R_SIG_BOT]

lemma biasFormula_eq (z : ℤ) : biasFormula z = reconstruct z biasProfile := by
  norm_num [biasFormula, reconstruct, biasProfile, R_BIAS_TOP, R_BIAS_BOT]

lemma reconstruct_peak_zero : reconstruct 0 peakProfile = 0 := by
  norm_num [reconstruct, peakProfile, R_SIG_TOP, R_SIG_BOT]

lemma switchPhase_state (input : ℕ) (s : MachineState) :
    (switchPhase input s).1.state = s.state := by
  simp only [switchPhase, read_adc]
  split_ifs <;> rfl

lemma buttonPhase_state (b : Buttons) (s : MachineState) :
    (buttonPhase b s).1.state =
      if b.start then 1 else if b.stop then 2 else if b.readBias then 3 else s.state := by
  obtain ⟨bs, bt, br⟩ := b
  cases bs <;> cases bt <;> cases br <;> rfl

lemma loopIter_state (b : Buttons) (n : ℕ) (s : MachineState) :
    (loopIter b n s).1.state =
      if b.start then 1 else if b.stop then 2 else if b.readBias then 3 else s.state := by
  simp only [loopIter]
  rw [switchPhase_state, buttonPhase_state]

lemma loopIter_start_peak (b : Buttons) (n : ℕ) (s : MachineState) (h : b.start = true) :
    (loopIter b n s).1.peakVoltage = (n : ℤ) := by
  simp only [loopIter, buttonPhase, switchPhase, read_adc, h, if_true]
  norm_num
  split <;> simp <;> omega

lemma loopIter_stop_peak (b : Buttons) (n : ℕ) (s : MachineState)
    (h1 : b.start = false) (h2 : b.stop = true) :
    (loopIter b n s).1.peakVoltage = s.peakVoltage := by
  obtain ⟨bs, bt, br⟩ := b
  subst_vars
  norm_num [loopIter, buttonPhase, switchPhase]

lemma loopIter_readBias_peak (b : Buttons) (n : ℕ) (s : MachineState)
    (h1 : b.start = false) (h2 : b.stop = false) (h3 : b.readBias = true) :
    (loopIter b n s).1.peakVoltage = s.peakVoltage := by
  obtain ⟨bs, bt, br⟩ := b
  subst_vars
  norm_num [loopIter, buttonPhase, switchPhase, read_adc]

lemma buttonPhase_start_peak (b : Buttons) (s : MachineState) (h : b.start = true) :
    (buttonPhase b s).1.peakVoltage = 0 := by
  simp [buttonPhase, h]

lemma runTrace_state_ne (inputs : List (Buttons × ℕ)) (s : MachineState)
    (h : s.state ≠ 0) : (runTrace inputs s).1.state ≠ 0 := by
  induction inputs generalizing s with
  | nil => exact h
  | cons p rest ih =>
    simp only [runTrace]
    apply ih
    rw [loopIter_state]
    split_ifs <;> simp [h]

/-- C1: both display paths reconstruct the voltage as
sample * referenceVoltage * (dividerNumerator / dividerDenominator) /
fullScaleCode; the peak path uses the 1.1 V reference, the resistances
495.2 and 101.65 and full scale 1023, the bias path uses the 5.0 V
supply reference, the resistances 498.1 and 101.8 and full scale 1023. -/
theorem reconstruct_matches_code : ∀ z : ℤ,
    peakFormula z = reconstruct z peakProfile ∧
    biasFormula z = reconstruct z biasProfile ∧
    peakProfile = { referenceVoltage := 1.1, dividerNumerator := 495.2 + 101.65,
                    dividerDenominator := 101.65, fullScaleCode := 1023 } ∧
    biasProfile = { referenceVoltage := 5.0, dividerNumerator := 498.1 + 101.8,
                    dividerDenominator := 101.8, fullScaleCode := 1023 } :=
  fun z => ⟨peakFormula_eq z, biasFormula_eq z, rfl, rfl⟩

/-- C2: for every non-negative voltage, print_volt renders the integer
part, a dot, exactly three zero-padded decimal digits obtained by
truncating the fractional part times 1000, then a space and the unit V;
in particular 1.0, 0.09, 12.5 and 0.0009 render as "1.000 V", "0.090 V",
"12.500 V" and "0.000 V". -/
theorem print_volt_formats :
    (∀ v : ℚ, 0 ≤ v →
      print_volt v = formatVoltage v ∧
      (pad3 ((⌊(v - (⌊v⌋ : ℚ)) * 1000⌋).toNat)).length = 3) ∧
    print_volt 1 = "1.000 V" ∧ print_volt (9/100) = "0.090 V" ∧
    print_volt (25/2) = "12.500 V" ∧ print_volt (9/10000) = "0.000 V" := by
  refine ⟨fun v hv => ⟨print_volt_spec v hv,
    pad3_length _ (by have := frac_thousand_bounds v; omega)⟩, ?_, ?_, ?_, ?_⟩
  · rw [print_volt_spec 1 (by norm_num)]
    norm_num [formatVoltage]
    decide
  · rw [print_volt_spec _ (by norm_num)]
    norm_num [formatVoltage]
    decide
  · rw [print_volt_spec _ (by norm_num)]
    norm_num [formatVoltage]
    decide
  · rw [print_volt_spec _ (by norm_num)]
    norm_num [formatVoltage]
    decide

/-- Witness for C2 at the concrete input 1. -/
theorem print_volt_formats_witness : print_volt 1 = formatVoltage 1 :=
  (print_volt_formats.1 1 zero_le_one).1

/-- C3: from power-up, Start then the samples 100, 300, 200, 450, 450 then
Stop leaves the peak accumulator at 450 and displays the voltage
reconstructed from 450 with the peak-signal profile. -/
theorem acquisition_run :
    (runTrace acquisitionTrace initialState).1.peakVoltage = 450 ∧
    (runTrace acquisitionTrace initialState).1.peak = reconstruct 450 peakProfile ∧
    Ev.text (print_volt (reconstruct 450 peakProfile)) ∈
      (runTrace acquisitionTrace initialState).2 := by
  have h450 : peakFormula 450 = reconstruct 450 peakProfile := by
    rw [peakFormula_eq]; norm_num
  rw [← h450]
  norm_num [acquisitionTrace, runTrace, loopIter, buttonPhase, switchPhase, read_adc,
    initialState, lcd_init_ev, print_APEL_ev]

/-- C4: transitions are decided by the fixed priority Start, then Stop,
then Read-Bias; in particular a loop iteration with several buttons
active behaves exactly as the iteration with only the winning button
active. -/
theorem button_priority (b : Buttons) (n : ℕ) (s : MachineState) :
    (b.start = true → loopIter b n s = loopIter ⟨true, false, false⟩ n s) ∧
    (b.start = false → b.stop = true → loopIter b n s = loopIter ⟨false, true, false⟩ n s) ∧
    (b.start = false → b.stop = false → b.readBias = true →
      loopIter b n s = loopIter ⟨false, false, true⟩ n s) := by
  obtain ⟨bs, bt, br⟩ := b
  refine ⟨fun h1 => ?_, fun h1 h2 => ?_, fun h1 h2 h3 => ?_⟩ <;> subst_vars <;> rfl

/-- Witness for C4: Start and Stop both held act as Start alone. -/
theorem button_priority_witness :
    loopIter ⟨true, true, false⟩ 5 initialState =
      loopIter ⟨true, false, false⟩ 5 initialState :=
  (button_priority ⟨true, true, false⟩ 5 initialState).1 rfl

/-- Counterexample to C5 as stated: holding Start for one more iteration
while already Acquiring with accumulated peak 300 and a new sample of
only 100 leaves the accumulator at 100, not 300 — the accumulator is
reset even though the machine was already in the selected mode. -/
theorem start_held_resets_counterexample :
    acquiringState300.state = 1 ∧ acquiringState300.peakVoltage = 300 ∧
    (loopIter ⟨true, false, false⟩ 100 acquiringState300).1.peakVoltage = 100 ∧
    (loopIter ⟨true, false, false⟩ 100 acquiringState300).1.peakVoltage ≠
      acquiringState300.peakVoltage := by
  have h := loopIter_start_peak ⟨true, false, false⟩ 100 acquiringState300 rfl
  refine ⟨rfl, rfl, ?_, ?_⟩
  · rw [h]; norm_num
  · rw [h]; norm_num [acquiringState300]

/-- C5 amended: reasserting Start while already Acquiring re-fires the
mode-entry reset every iteration (level-triggered), so the accumulator
afterwards is exactly that iteration's sample, the previous peak being
lost; reasserting Stop while Stopped or Read-Bias while ReadingBias
leaves the peak accumulator unchanged. -/
theorem held_button_reset_behavior :
    (∀ (b : Buttons) (n : ℕ) (s : MachineState), b.start = true → s.state = 1 →
      (loopIter b n s).1.peakVoltage = (n : ℤ)) ∧
    (∀ (b : Buttons) (n : ℕ) (s : MachineState), b.start = false → b.stop = true →
      s.state = 2 → (loopIter b n s).1.peakVoltage = s.peakVoltage) ∧
    (∀ (b : Buttons) (n : ℕ) (s : MachineState), b.start = false → b.stop = false →
      b.readBias = true → s.state = 3 → (loopIter b n s).1.peakVoltage = s.peakVoltage) :=
  ⟨fun b n s hb _ => loopIter_start_peak b n s hb,
   fun b n s h1 h2 _ => loopIter_stop_peak b n s h1 h2,
   fun b n s h1 h2 h3 _ => loopIter_readBias_peak b n s h1 h2 h3⟩

/-- Witness for C5 amended: one more Start iteration with sample 100 on a
machine Acquiring with peak 300 ends with accumulator 100. -/
theorem held_button_reset_behavior_witness :
    (loopIter ⟨true, false, false⟩ 100 acquiringState300).1.peakVoltage = ((100 : ℕ) : ℤ) :=
  held_button_reset_behavior.1 ⟨true, false, false⟩ 100 acquiringState300 rfl rfl

/-- C6: from Stopped, an iteration with Start active zeroes the peak
accumulator in the button phase, before the sample of that iteration is
accumulated, so the resulting accumulator is that sample alone and does
not depend on the previous acquisition's peak. -/
theorem start_from_stopped_resets (b : Buttons) (n : ℕ) (s : MachineState)
    (hs : s.state = 2) (hb : b.start = true) :
    (buttonPhase b s).1.peakVoltage = 0 ∧
    (loopIter b n s).1.peakVoltage = (n : ℤ) ∧
    (∀ t : MachineState, t.state = 2 →
      (loopIter b n t).1.peakVoltage = (loopIter b n s).1.peakVoltage) := by
  refine ⟨buttonPhase_start_peak b s hb, loopIter_start_peak b n s hb, fun t ht => ?_⟩
  rw [loopIter_start_peak b n t hb, loopIter_start_peak b n s hb]

/-- Witness for C6: restarting from a Stopped state holding peak 450 with
first sample 37 gives accumulator 37. -/
theorem start_from_stopped_resets_witness :
    (loopIter ⟨true, false, false⟩ 37 stoppedState450).1.peakVoltage = ((37 : ℕ) : ℤ) :=
  (start_from_stopped_resets ⟨true, false, false⟩ 37 stoppedState450 rfl rfl).2.1

/-- C7: a button-free iteration in mode ReadingBias samples and displays
the bias voltage but leaves the peak accumulator unchanged. -/
theorem readbias_keeps_peak (n : ℕ) (s : MachineState) (hs : s.state = 3) :
    (loopIter ⟨false, false, false⟩ n s).1.peakVoltage = s.peakVoltage := by
  norm_num [loopIter, buttonPhase, switchPhase, read_adc, hs]

/-- Witness for C7 at a concrete ReadingBias state. -/
theorem readbias_keeps_peak_witness :
    (loopIter ⟨false, false, false⟩ 5 readingBiasState).1.peakVoltage =
      readingBiasState.peakVoltage :=
  readbias_keeps_peak 5 readingBiasState rfl

/-- C8: on [0, fullScaleCode] the reconstruction is monotonically
non-decreasing in the sample for both profiles, with value 0 at sample 0
and referenceVoltage times the divider ratio at full scale. -/
theorem reconstruct_monotone :
    (∀ s₁ s₂ : ℕ, s₁ ≤ s₂ → s₂ ≤ 1023 →
      reconstruct s₁ peakProfile ≤ reconstruct s₂ peakProfile ∧
      reconstruct s₁ biasProfile ≤ reconstruct s₂ biasProfile) ∧
    reconstruct 0 peakProfile = 0 ∧ reconstruct 0 biasProfile = 0 ∧
    reconstruct peakProfile.fullScaleCode peakProfile =
      peakProfile.referenceVoltage *
        (peakProfile.dividerNumerator / peakProfile.dividerDenominator) ∧
    reconstruct biasProfile.fullScaleCode biasProfile =
      biasProfile.referenceVoltage *
        (biasProfile.dividerNumerator / biasProfile.dividerDenominator) := by
  refine ⟨fun s₁ s₂ h hle => ?_, reconstruct_peak_zero, ?_, ?_, ?_⟩
  · have hc : ((s₁ : ℚ)) ≤ (s₂ : ℚ) := Nat.cast_le.mpr h
    constructor
    · simp only [reconstruct, peakProfile, R_SIG_TOP, R_SIG_BOT]
      gcongr <;> norm_num
    · simp only [reconstruct, biasProfile, R_BIAS_TOP, R_BIAS_BOT]
      gcongr <;> norm_num
  · norm_num [reconstruct, biasProfile, R_BIAS_TOP, R_BIAS_BOT]
  · norm_num [reconstruct, peakProfile, R_SIG_TOP, R_SIG_BOT]
  · norm_num [reconstruct, biasProfile, R_BIAS_TOP, R_BIAS_BOT]

/-- Witness for C8 at samples 100 and 450. -/
theorem reconstruct_monotone_witness :
    reconstruct 100 peakProfile ≤ reconstruct 450 peakProfile :=
  (reconstruct_monotone.1 100 450 (by decide) (by decide)).1

/-- C9: a pressed button fires its transition in every mode; in
particular Stop pressed in the power-up Idle state enters Stopped and
displays the voltage reconstructed from the accumulator 0, rendered
"0.000 V", and Read-Bias pressed during Acquiring enters ReadingBias. -/
theorem buttons_unguarded_by_mode :
    (∀ (b : Buttons) (n : ℕ) (s : MachineState), b.start = true →
      (loopIter b n s).1.state = 1) ∧
    (∀ (b : Buttons) (n : ℕ) (s : MachineState), b.start = false → b.stop = true →
      (loopIter b n s).1.state = 2) ∧
    (∀ (b : Buttons) (n : ℕ) (s : MachineState), b.start = false → b.stop = false →
      b.readBias = true → (loopIter b n s).1.state = 3) ∧
    (loopIter ⟨false, true, false⟩ 0 initialState).1.state = 2 ∧
    Ev.text (print_volt (reconstruct 0 peakProfile)) ∈
      (loopIter ⟨false, true, false⟩ 0 initialState).2 ∧
    print_volt (reconstruct 0 peakProfile) = "0.000 V" := by
  have h0 : peakFormula 0 = reconstruct 0 peakProfile := by
    rw [peakFormula_eq]; norm_num
  refine ⟨fun b n s h1 => by simp [loopIter_state, h1],
    fun b n s h1 h2 => by simp [loopIter_state, h1, h2],
    fun b n s h1 h2 h3 => by simp [loopIter_state, h1, h2, h3], by rfl, ?_, ?_⟩
  · rw [← h0]
    norm_num [loopIter, buttonPhase, switchPhase, initialState, lcd_init_ev]
  · rw [← h0]
    have hz : peakFormula 0 = 0 := by norm_num [peakFormula]
    rw [hz, print_volt_zero]

/-- Witness for C9: Read-Bias pressed during Acquiring enters
ReadingBias. -/
theorem buttons_unguarded_by_mode_witness :
    (loopIter ⟨false, false, true⟩ 0 acquiringState300).1.state = 3 :=
  buttons_unguarded_by_mode.2.2.1 ⟨false, false, true⟩ 0 acquiringState300 rfl rfl rfl

/-- C10: any iteration with at least one active button leaves the machine
in a mode other than Idle, a non-Idle mode is preserved by every further
iteration, and hence any run containing an iteration with an active
button ends outside Idle. -/
theorem idle_never_reentered :
    (∀ (b : Buttons) (n : ℕ) (s : MachineState),
      (b.start || b.stop || b.readBias) = true → (loopIter b n s).1.state ≠ 0) ∧
    (∀ (b : Buttons) (n : ℕ) (s : MachineState),
      s.state ≠ 0 → (loopIter b n s).1.state ≠ 0) ∧
    (∀ (inputs : List (Buttons × ℕ)) (s : MachineState),
      (∃ p ∈ inputs, (p.1.start || p.1.stop || p.1.readBias) = true) →
      (runTrace inputs s).1.state ≠ 0) := by
  have key : ∀ (b : Buttons) (n : ℕ) (s : MachineState),
      (b.start || b.stop || b.readBias) = true → (loopIter b n s).1.state ≠ 0 := by
    intro b n s h
    rw [loopIter_state]
    obtain ⟨bs, bt, br⟩ := b
    cases bs <;> cases bt <;> cases br <;> simp_all
  have pres : ∀ (b : Buttons) (n : ℕ) (s : MachineState),
      s.state ≠ 0 → (loopIter b n s).1.state ≠ 0 := by
    intro b n s h
    rw [loopIter_state]
    split_ifs <;> simp [h]
  refine ⟨key, pres, ?_⟩
  intro inputs
  induction inputs with
  | nil => rintro s ⟨p, hp, _⟩; simp at hp
  | cons q rest ih =>
    rintro s ⟨p, hp, hactive⟩
    simp only [List.mem_cons] at hp
    simp only [runTrace]
    rcases hp with rfl | hp
    · exact runTrace_state_ne rest _ (key p.1 p.2 s hactive)
    · exact ih _ ⟨p, hp, hactive⟩

/-- Witness for C10: a single iteration with Read-Bias active from
power-up does not stay in Idle. -/
theorem idle_never_reentered_witness :
    (loopIter ⟨false, false, true⟩ 0 initialState).1.state ≠ 0 :=
  idle_never_reentered.1 ⟨false, false, true⟩ 0 initialState rfl

end APEL
